import Mathlib

/- Formal model of the conversion and rate-caching engine of proekt.py
   (classes CurrencyConverter and UnitConverter, dataclass ConversionResult).

   Modelling conventions:
   - Python floats are modelled as exact rationals (ℚ).
   - Python float division raises ZeroDivisionError when the divisor is zero;
     this is modelled by fdiv returning none in that case.
   - datetime timestamps are modelled as rationals measured in hours, so that
     datetime.now() - cache_time < timedelta(hours=CACHE_DURATION_HOURS)
     becomes now - timestamp < CACHE_DURATION_HOURS.
   - Python dicts with string keys are modelled as association lists with
     first-match lookup (dict keys are unique, so this is faithful).
   - Exceptions that escape a function are modelled with Except. -/

/-- Python float division a / b: none models ZeroDivisionError (b == 0). -/
def fdiv (a b : ℚ) : Option ℚ := if b = 0 then none else some (a / b)

/-- Python str.upper(); the engine only uppercases ASCII currency codes,
for which Char.toUpper agrees with Python. -/
def pyUpper (s : String) : String := ⟨s.data.map Char.toUpper⟩

/-- Python dict membership/lookup d[k] for a string-keyed dict. -/
def dictGet {α : Type} (d : List (String × α)) (k : String) : Option α :=
  (d.find? (fun e => e.1 == k)).map Prod.snd

/-- ConversionResult dataclass (proekt.py lines 20-28); rate defaults to None. -/
structure ConversionResult where
  amount : ℚ
  from_unit : String
  to_unit : String
  result : ℚ
  timestamp : ℚ
  rate : Option ℚ := none
  deriving DecidableEq

/-- CACHE_DURATION_HOURS = 24 (proekt.py line 16). -/
def CACHE_DURATION_HOURS : ℚ := 24

namespace CurrencyConverter

/-- The mutable attributes of a CurrencyConverter instance
(base_currency, rates, last_update; proekt.py lines 33-38).
The api_key/api_url attributes only configure the HTTP transport,
which sits behind the FetchOutcome boundary below. -/
structure State where
  base_currency : String
  rates : List (String × ℚ)
  last_update : Option ℚ
  deriving DecidableEq

/-- Errors CurrencyConverter.convert can raise (proekt.py lines 96-128):
the two explicit ValueError raises, and ZeroDivisionError from float division. -/
inductive Err
  | ratesNotLoaded
  | unknownCurrency
  | zeroDivisionError
  deriving DecidableEq

/-- CurrencyConverter.convert (proekt.py lines 96-128).
The construction at line 127 passes rate via the expression
rate if (rate is a bound local) else self.rates[to_currency]; every
path that reaches line 121 has bound the local rate, so the fallback
branch of that expression is unreachable and each arm below passes
the rate it computed. -/
def convert (self : State) (from_currency to_currency : String) (amount : ℚ)
    (now : ℚ) : Except Err ConversionResult :=
  if self.rates.isEmpty then
    .error .ratesNotLoaded
  else
    let fc := pyUpper from_currency
    let tc := pyUpper to_currency
    match dictGet self.rates fc, dictGet self.rates tc with
    | some rate_from, some rate_to =>
      if fc = self.base_currency then
        -- rate = self.rates[to_currency]; result = amount * rate
        .ok ⟨amount, fc, tc, amount * rate_to, now, some rate_to⟩
      else if tc = self.base_currency then
        -- rate = 1 / self.rates[from_currency]; result = amount * rate
        match fdiv 1 rate_from with
        | none => .error .zeroDivisionError
        | some rate => .ok ⟨amount, fc, tc, amount * rate, now, some rate⟩
      else
        -- amount_in_base = amount / self.rates[from_currency]
        -- result = amount_in_base * self.rates[to_currency]
        -- rate = result / amount   (ZeroDivisionError when amount == 0)
        match fdiv amount rate_from with
        | none => .error .zeroDivisionError
        | some amount_in_base =>
          let result := amount_in_base * rate_to
          match fdiv result amount with
          | none => .error .zeroDivisionError
          | some rate => .ok ⟨amount, fc, tc, result, now, some rate⟩
    | _, _ => .error .unknownCurrency

/-- The cache file payload written by _save_to_cache (proekt.py lines 59-70):
a JSON object with fields timestamp, base, rates. -/
structure CacheRecord where
  timestamp : ℚ
  base : String
  rates : List (String × ℚ)
  deriving DecidableEq

/-- The possible states of the cache file as _load_from_cache observes them:
missing (os.path.exists is false), corrupt (json.load / fromisoformat /
key access raised inside the try block, caught at line 54), or a
well-formed record. -/
inductive CacheFile
  | missing
  | corrupt
  | wellFormed (r : CacheRecord)
  deriving DecidableEq

/-- CurrencyConverter._load_from_cache (proekt.py lines 40-57). -/
def load_from_cache (cache : CacheFile) (now : ℚ) (self : State) : State × Bool :=
  match cache with
  | .missing => (self, false)
  | .corrupt => (self, false)
  | .wellFormed r =>
    if now - r.timestamp < CACHE_DURATION_HOURS then
      ({ self with rates := r.rates, last_update := some r.timestamp }, true)
    else
      (self, false)

/-- The observable outcomes of the HTTP request in fetch_rates
(proekt.py lines 79-81): a transport error (requests RequestException,
covering timeouts and raise_for_status), a body that is not valid JSON
(JSONDecodeError), or a decoded JSON payload, of which fetch_rates
reads the keys result and conversion_rates (none models a missing key). -/
inductive FetchOutcome
  | transportError
  | jsonError
  | payload (result : Option String) (conversion_rates : Option (List (String × ℚ)))
  deriving DecidableEq

/-- An exception escaping fetch_rates: dict key access on the decoded
payload raises KeyError, which lines 91-94 do not catch. -/
inductive PyErr
  | keyError
  deriving DecidableEq

/-- The normal-return observables of fetch_rates: the new converter state,
the returned boolean, and the cache file after the call (_save_to_cache
overwrites it on the success path; a write failure is swallowed and does
not affect the converter state, so it is not modelled separately). -/
structure FetchOk where
  state : State
  success : Bool
  cacheOut : CacheFile
  deriving DecidableEq

/-- CurrencyConverter.fetch_rates (proekt.py lines 72-94).
The second component of the returned pair records whether the remote
source was contacted (the requests.get call at line 79 was reached). -/
def fetch_rates (cache : CacheFile) (net : FetchOutcome) (now : ℚ) (self : State) :
    Except PyErr FetchOk × Bool :=
  match load_from_cache cache now self with
  | (self1, true) => (.ok ⟨self1, true, cache⟩, false)
  | (self1, false) =>
    match net with
    | .transportError => (.ok ⟨self1, false, cache⟩, true)
    | .jsonError => (.ok ⟨self1, false, cache⟩, true)
    | .payload result conversion_rates =>
      match result with
      | none => (.error .keyError, true)
      | some s =>
        if s = "success" then
          match conversion_rates with
          | none => (.error .keyError, true)
          | some m =>
            let self2 : State := { self1 with rates := m, last_update := some now }
            (.ok ⟨self2, true, .wellFormed ⟨now, self2.base_currency, m⟩⟩, true)
        else
          (.ok ⟨self1, false, cache⟩, true)

end CurrencyConverter

/-- A value of the CONVERSION_FACTORS table: either a linear scale factor
(a float in the source) or one of the string markers used by the
temperature category. -/
inductive Factor
  | num (q : ℚ)
  | marker (s : String)
  deriving DecidableEq

namespace UnitConverter

/-- UnitConverter.CONVERSION_FACTORS (proekt.py lines 140-244), with the
insertion order of the source preserved. -/
def CONVERSION_FACTORS : List (String × List (String × Factor)) :=
  [("Длина",
    [("мм", .num 0.001),
     ("см", .num 0.01),
     ("м", .num 1.0),
     ("км", .num 1000.0),
     ("дюйм", .num 0.0254),
     ("фут", .num 0.3048),
     ("ярд", .num 0.9144),
     ("миля", .num 1609.34),
     ("морская миля", .num 1852.0)]),
   ("Масса",
    [("мг", .num 0.000001),
     ("г", .num 0.001),
     ("кг", .num 1.0),
     ("т", .num 1000.0),
     ("центнер", .num 100.0),
     ("унция", .num 0.0283495),
     ("фунт", .num 0.453592),
     ("карат", .num 0.0002)]),
   ("Температура",
    [("°C", .marker "celsius"),
     ("°F", .marker "fahrenheit"),
     ("K", .marker "kelvin")]),
   ("Площадь",
    [("мм²", .num 0.000001),
     ("см²", .num 0.0001),
     ("м²", .num 1.0),
     ("км²", .num 1000000.0),
     ("га", .num 10000.0),
     ("сотка", .num 100.0),
     ("акр", .num 4046.86),
     ("фут²", .num 0.092903),
     ("дюйм²", .num 0.00064516)]),
   ("Скорость",
    [("м/с", .num 1.0),
     ("км/ч", .num 0.277778),
     ("миль/ч", .num 0.44704),
     ("узлы", .num 0.514444),
     ("фут/с", .num 0.3048)]),
   ("Объем",
    [("мл", .num 0.001),
     ("л", .num 1.0),
     ("м³", .num 1000.0),
     ("см³", .num 0.001),
     ("галлон US", .num 3.78541),
     ("галлон UK", .num 4.54609),
     ("пинта US", .num 0.473176),
     ("пинта UK", .num 0.568261),
     ("жидкая унция", .num 0.0295735),
     ("баррель нефтяной", .num 158.987)]),
   ("Давление",
    [("Па", .num 1.0),
     ("кПа", .num 1000.0),
     ("МПа", .num 1000000.0),
     ("бар", .num 100000.0),
     ("атм", .num 101325.0),
     ("мм рт.ст.", .num 133.322),
     ("psi", .num 6894.76)]),
   ("Энергия",
    [("Дж", .num 1.0),
     ("кДж", .num 1000.0),
     ("МДж", .num 1000000.0),
     ("ккал", .num 4184.0),
     ("кал", .num 4.184),
     ("кВт·ч", .num 3600000.0),
     ("эВ", .num 1.60218e-19)]),
   ("Мощность",
    [("Вт", .num 1.0),
     ("кВт", .num 1000.0),
     ("МВт", .num 1000000.0),
     ("л.с.", .num 735.499),
     ("л.с. (англ.)", .num 745.7)]),
   ("Время",
    [("нс", .num 1e-9),
     ("мкс", .num 1e-6),
     ("мс", .num 0.001),
     ("с", .num 1.0),
     ("мин", .num 60.0),
     ("ч", .num 3600.0),
     ("день", .num 86400.0),
     ("неделя", .num 604800.0),
     ("месяц", .num 2592000.0),
     ("год", .num 31536000.0)])]

/-- UnitConverter.get_unit_type (proekt.py lines 323-329): first category
whose unit mapping contains the code, else None. -/
def get_unit_type (unit : String) : Option String :=
  (CONVERSION_FACTORS.find? (fun p => (p.2.find? (fun e => e.1 == unit)).isSome)).map
    Prod.fst

/-- Errors UnitConverter.convert can raise (proekt.py lines 332-381):
the three explicit ValueError raises (with the data their messages
interpolate), plus the exceptions Python would raise if a unit resolved
to a category whose table entry is missing or non-numeric (KeyError or
TypeError at lines 348-350 - unreachable) or if a scale factor were zero
(ZeroDivisionError at line 350 - unreachable). -/
inductive Err
  | unknownUnit (from_unit to_unit : String)
  | incompatibleUnits (from_unit from_type to_unit to_type : String)
  | unknownTempUnit (unit : String)
  | tableError
  | zeroDivisionError
  deriving DecidableEq

/-- UnitConverter._convert_temperature (proekt.py lines 360-381). -/
def convert_temperature (value : ℚ) (from_unit to_unit : String) : Except Err ℚ :=
  match
    (if from_unit = "°C" then .ok value
     else if from_unit = "°F" then .ok ((value - 32) * 5 / 9)
     else if from_unit = "K" then .ok (value - 273.15)
     else .error (.unknownTempUnit from_unit) : Except Err ℚ) with
  | .error e => .error e
  | .ok celsius =>
    if to_unit = "°C" then .ok celsius
    else if to_unit = "°F" then .ok (celsius * 9 / 5 + 32)
    else if to_unit = "K" then .ok (celsius + 273.15)
    else .error (.unknownTempUnit to_unit)

/-- Dict lookup cls.CONVERSION_FACTORS[unit_type] (proekt.py line 348). -/
def findFactors (unit_type : String) : Option (List (String × Factor)) :=
  (CONVERSION_FACTORS.find? (fun p => p.1 == unit_type)).map Prod.snd

/-- UnitConverter.convert (proekt.py lines 331-358). -/
def convert (value : ℚ) (from_unit to_unit : String) (now : ℚ) :
    Except Err ConversionResult :=
  match get_unit_type from_unit, get_unit_type to_unit with
  | some from_unit_type, some to_unit_type =>
    if from_unit_type ≠ to_unit_type then
      .error (.incompatibleUnits from_unit from_unit_type to_unit to_unit_type)
    else if from_unit_type = "Температура" then
      match convert_temperature value from_unit to_unit with
      | .error e => .error e
      | .ok result => .ok ⟨value, from_unit, to_unit, result, now, none⟩
    else
      match findFactors from_unit_type with
      | none => .error .tableError
      | some factors =>
        match factors.find? (fun e => e.1 == from_unit),
              factors.find? (fun e => e.1 == to_unit) with
        | some (_, Factor.num f_from), some (_, Factor.num f_to) =>
          -- value_in_base = value * factors[from_unit]
          -- result = value_in_base / factors[to_unit]
          match fdiv (value * f_from) f_to with
          | none => .error .zeroDivisionError
          | some result => .ok ⟨value, from_unit, to_unit, result, now, none⟩
        | _, _ => .error .tableError
  | _, _ => .error (.unknownUnit from_unit to_unit)

end UnitConverter

/-- Spec-side definition, following the wording of the claim about
temperature conversion: map the input reading to Celsius (identity for
Celsius, (x - 32) * 5/9 for Fahrenheit, x - 273.15 for Kelvin). -/
def specToCelsius (x : ℚ) (u : String) : ℚ :=
  if u = "°C" then x
  else if u = "°F" then (x - 32) * 5 / 9
  else x - 273.15

/-- Spec-side definition, following the wording of the claim about
temperature conversion: map a Celsius value to the target unit (identity
for Celsius, c * 9/5 + 32 for Fahrenheit, c + 273.15 for Kelvin). -/
def specFromCelsius (c : ℚ) (v : String) : ℚ :=
  if v = "°C" then c
  else if v = "°F" then c * 9 / 5 + 32
  else c + 273.15

/- ======================= helper lemmas ======================= -/

theorem find?_unique {α : Type} (p : α → Bool) (l : List α) (a : α)
    (ha : a ∈ l) (hpa : p a) (huniq : ∀ b ∈ l, p b → b = a) :
    l.find? p = some a := by
  induction l with
  | nil => cases ha
  | cons x xs ih =>
    by_cases hx : p x
    · have : x = a := huniq x (List.mem_cons_self x xs) hx
      subst this
      simp [List.find?, hx]
    · have hax : a ∈ xs := by
        rcases List.mem_cons.mp ha with h | h
        · subst h; exact absurd hpa hx
        · exact h
      have := ih hax (fun b hb hpb => huniq b (List.mem_cons_of_mem x hb) hpb)
      simp [List.find?, hx, this]

namespace UnitConverter

theorem table_names_nodup : (CONVERSION_FACTORS.map Prod.fst).Nodup := by decide

theorem table_keys_disjoint :
    ∀ p ∈ CONVERSION_FACTORS, ∀ q ∈ CONVERSION_FACTORS,
      p.1 ≠ q.1 → ∀ e ∈ p.2, ∀ f ∈ q.2, e.1 ≠ f.1 := by decide

theorem table_keys_nodup : ∀ p ∈ CONVERSION_FACTORS, (p.2.map Prod.fst).Nodup := by
  decide

theorem table_temp_units :
    ∀ p ∈ CONVERSION_FACTORS, p.1 = "Температура" →
      ∀ e ∈ p.2, e.1 = "°C" ∨ e.1 = "°F" ∨ e.1 = "K" := by decide

theorem table_linear_factors :
    ∀ p ∈ CONVERSION_FACTORS, p.1 ≠ "Температура" →
      ∀ e ∈ p.2, ∃ q : ℚ, e.2 = Factor.num q ∧ q ≠ 0 := by
  intro p hp
  fin_cases hp <;>
    first
    | (intro h; exact absurd rfl h)
    | (intro _ e he
       fin_cases he <;> exact ⟨_, rfl, by norm_num⟩)

theorem table_row_unique {C : String} {fs gs : List (String × Factor)}
    (h1 : (C, fs) ∈ CONVERSION_FACTORS) (h2 : (C, gs) ∈ CONVERSION_FACTORS) :
    fs = gs := by
  have := List.inj_on_of_nodup_map table_names_nodup h1 h2 rfl
  exact congrArg Prod.snd this

theorem gut_of_mem {C u : String} {fs : List (String × Factor)} {e : String × Factor}
    (hC : (C, fs) ∈ CONVERSION_FACTORS) (he : e ∈ fs) (heu : e.1 = u) :
    get_unit_type u = some C := by
  unfold get_unit_type
  rw [find?_unique _ CONVERSION_FACTORS (C, fs) hC ?_ ?_]
  · rfl
  · rw [List.find?_isSome]
    exact ⟨e, he, by simp [heu]⟩
  · intro b hb hpb
    rw [List.find?_isSome] at hpb
    obtain ⟨f, hf, hfu⟩ := hpb
    by_cases hname : b.1 = C
    · exact List.inj_on_of_nodup_map table_names_nodup hb hC hname
    · exact absurd (by simp at hfu; rw [hfu, ← heu])
        (table_keys_disjoint b hb (C, fs) hC hname f hf e he)

theorem gut_inv {u C : String} (h : get_unit_type u = some C) :
    ∃ fs, (C, fs) ∈ CONVERSION_FACTORS ∧ ∃ e ∈ fs, e.1 = u := by
  unfold get_unit_type at h
  rw [Option.map_eq_some'] at h
  obtain ⟨p, hp, hpc⟩ := h
  have hmem := List.mem_of_find?_eq_some hp
  have hpred := List.find?_some hp
  rw [List.find?_isSome] at hpred
  obtain ⟨e, he, heu⟩ := hpred
  subst hpc
  exact ⟨p.2, by rw [Prod.mk.eta]; exact hmem, e, he, by simpa using heu⟩

theorem findFactors_eq {C : String} {fs : List (String × Factor)}
    (hC : (C, fs) ∈ CONVERSION_FACTORS) : findFactors C = some fs := by
  unfold findFactors
  rw [find?_unique _ CONVERSION_FACTORS (C, fs) hC (by simp) ?_]
  · rfl
  · intro b hb hpb
    simp at hpb
    exact List.inj_on_of_nodup_map table_names_nodup hb hC hpb

theorem row_find_eq {fs : List (String × Factor)} {e : String × Factor} {u : String}
    (hfs : ∃ C, (C, fs) ∈ CONVERSION_FACTORS) (he : e ∈ fs) (heu : e.1 = u) :
    fs.find? (fun x => x.1 == u) = some e := by
  obtain ⟨C, hC⟩ := hfs
  apply find?_unique _ fs e he (by simp [heu])
  intro b hb hpb
  simp at hpb
  exact List.inj_on_of_nodup_map (table_keys_nodup (C, fs) hC) hb he (by rw [hpb, heu])

theorem convert_linear_eval {C : String} {fs : List (String × Factor)}
    {u v : String} {fu fv : ℚ}
    (hC : (C, fs) ∈ CONVERSION_FACTORS) (hT : C ≠ "Температура")
    (hu : (u, Factor.num fu) ∈ fs) (hv : (v, Factor.num fv) ∈ fs)
    (x now : ℚ) :
    convert x u v now = .ok ⟨x, u, v, x * fu / fv, now, none⟩ := by
  have hgu : get_unit_type u = some C := gut_of_mem hC hu rfl
  have hgv : get_unit_type v = some C := gut_of_mem hC hv rfl
  have hfv : fv ≠ 0 := by
    obtain ⟨q, hq, hq0⟩ := table_linear_factors (C, fs) hC hT (v, Factor.num fv) hv
    cases hq
    exact hq0
  unfold convert
  rw [hgu, hgv]
  simp only [ne_eq, not_true_eq_false, if_false, ite_self, if_neg hT,
    findFactors_eq hC, row_find_eq ⟨C, hC⟩ hu rfl, row_find_eq ⟨C, hC⟩ hv rfl,
    fdiv, if_neg hfv]

theorem temp_eval {u v : String} (hu : u ∈ (["°C", "°F", "K"] : List String))
    (hv : v ∈ (["°C", "°F", "K"] : List String)) (x now : ℚ) :
    convert x u v now =
      .ok ⟨x, u, v, specFromCelsius (specToCelsius x u) v, now, none⟩ := by
  fin_cases hu <;> fin_cases hv <;> rfl

end UnitConverter

/-- C1: for every finite value x and temperature units u, v drawn from
°C, °F, K, UnitConverter.convert maps x to v by the two-step affine
computation through Celsius, and in particular convert(0, °C, K).result
is 273.15, convert(32, °F, °C).result is 0, and convert(100, °C, °F).result
is 212. -/
theorem C1_temperature_two_step_affine :
    (∀ u ∈ (["°C", "°F", "K"] : List String), ∀ v ∈ (["°C", "°F", "K"] : List String),
      ∀ x now : ℚ, UnitConverter.convert x u v now =
        .ok ⟨x, u, v, specFromCelsius (specToCelsius x u) v, now, none⟩)
    ∧ (∃ r, UnitConverter.convert 0 "°C" "K" 0 = .ok r ∧ r.result = 273.15)
    ∧ (∃ r, UnitConverter.convert 32 "°F" "°C" 0 = .ok r ∧ r.result = 0)
    ∧ (∃ r, UnitConverter.convert 100 "°C" "°F" 0 = .ok r ∧ r.result = 212) := by
  refine ⟨fun u hu v hv x now => UnitConverter.temp_eval hu hv x now,
    ⟨_, rfl, by norm_num⟩, ⟨_, rfl, by norm_num⟩, ⟨_, rfl, by norm_num⟩⟩

/-- C1 witness: the general part of the theorem evaluated at 25 °C to °F. -/
theorem C1_temperature_two_step_affine_witness :
    UnitConverter.convert 25 "°C" "°F" 0 =
      .ok ⟨25, "°C", "°F", specFromCelsius (specToCelsius 25 "°C") "°F", 0, none⟩ :=
  C1_temperature_two_step_affine.1 "°C" (by decide) "°F" (by decide) 25 0

/-- C4: for every non-temperature category and every pair of its units,
UnitConverter.convert succeeds and returns value * factor[from] / factor[to],
echoing the input value and unit codes. -/
theorem C4_linear_category_formula {C : String} {fs : List (String × Factor)}
    (hC : (C, fs) ∈ UnitConverter.CONVERSION_FACTORS) (hT : C ≠ "Температура")
    {u v : String} {fu fv : ℚ}
    (hu : (u, Factor.num fu) ∈ fs) (hv : (v, Factor.num fv) ∈ fs)
    (x now : ℚ) :
    UnitConverter.convert x u v now = .ok ⟨x, u, v, x * fu / fv, now, none⟩ :=
  UnitConverter.convert_linear_eval hC hT hu hv x now

/-- C4 witness: 100 cm is 1 m. -/
theorem C4_linear_category_formula_witness :
    UnitConverter.convert 100 "см" "м" 0 = .ok ⟨100, "см", "м", 1, 0, none⟩ := by
  have hC : ("Длина",
      [("мм", Factor.num 0.001), ("см", Factor.num 0.01), ("м", Factor.num 1.0),
       ("км", Factor.num 1000.0), ("дюйм", Factor.num 0.0254), ("фут", Factor.num 0.3048),
       ("ярд", Factor.num 0.9144), ("миля", Factor.num 1609.34),
       ("морская миля", Factor.num 1852.0)]) ∈ UnitConverter.CONVERSION_FACTORS :=
    List.mem_cons_self _ _
  have h := C4_linear_category_formula hC (by decide)
    (show ("см", Factor.num 0.01) ∈ _ from by simp)
    (show ("м", Factor.num 1.0) ∈ _ from by simp) 100 0
  rw [h]
  norm_num

/-- C5: identity conversion is exact: for every unit u of any category and
every value x, UnitConverter.convert x u u succeeds with result x. -/
theorem C5_identity_exact (u C : String) (h : UnitConverter.get_unit_type u = some C)
    (x now : ℚ) :
    UnitConverter.convert x u u now = .ok ⟨x, u, u, x, now, none⟩ := by
  obtain ⟨fs, hC, e, he, heu⟩ := UnitConverter.gut_inv h
  by_cases hT : C = "Температура"
  · subst hT
    have hu : u ∈ (["°C", "°F", "K"] : List String) := by
      rcases UnitConverter.table_temp_units ("Температура", fs) hC rfl e he with
        h1 | h1 | h1 <;> simp [← heu, h1]
    rw [UnitConverter.temp_eval hu hu x now]
    fin_cases hu <;> simp [specToCelsius, specFromCelsius]
  · obtain ⟨q, hq, hq0⟩ := UnitConverter.table_linear_factors (C, fs) hC hT e he
    have he' : (u, Factor.num q) ∈ fs := by
      have : e = (u, Factor.num q) := Prod.ext heu hq
      rwa [this] at he
    rw [UnitConverter.convert_linear_eval hC hT he' he' x now]
    congr 1
    rw [mul_div_assoc, div_self hq0, mul_one]

/-- C5 witness: identity on kilograms. -/
theorem C5_identity_exact_witness :
    UnitConverter.convert 5 "кг" "кг" 0 = .ok ⟨5, "кг", "кг", 5, 0, none⟩ :=
  C5_identity_exact "кг" "Масса" rfl 5 0

/-- C8: UnitConverter.convert fails with the unknown-unit error exactly when a
unit resolves to no category; otherwise with the incompatible-units error
(naming both categories) exactly when the categories differ; otherwise it
succeeds. -/
theorem C8_unit_error_taxonomy (x now : ℚ) (u v : String) :
    ((UnitConverter.get_unit_type u = none ∨ UnitConverter.get_unit_type v = none) →
        UnitConverter.convert x u v now = .error (.unknownUnit u v))
    ∧ (∀ cu cv, UnitConverter.get_unit_type u = some cu →
        UnitConverter.get_unit_type v = some cv → cu ≠ cv →
        UnitConverter.convert x u v now = .error (.incompatibleUnits u cu v cv))
    ∧ (∀ c, UnitConverter.get_unit_type u = some c →
        UnitConverter.get_unit_type v = some c →
        ∃ r, UnitConverter.convert x u v now = .ok r) := by
  refine ⟨?_, ?_, ?_⟩
  · intro h
    unfold UnitConverter.convert
    rcases hgu : UnitConverter.get_unit_type u with _ | cu <;>
      rcases hgv : UnitConverter.get_unit_type v with _ | cv <;>
      simp only []
    rw [hgu, hgv] at h
    rcases h with h | h <;> exact absurd h (by simp)
  · intro cu cv hcu hcv hne
    unfold UnitConverter.convert
    rw [hcu, hcv]
    simp only [ne_eq, hne, not_false_eq_true, if_true]
  · intro c hcu hcv
    by_cases hT : c = "Температура"
    · subst hT
      obtain ⟨fs, hC, e, he, heu⟩ := UnitConverter.gut_inv hcu
      obtain ⟨fs', hC', e', he', heu'⟩ := UnitConverter.gut_inv hcv
      rw [UnitConverter.table_row_unique hC' hC] at he' hC'
      have hu3 : u ∈ (["°C", "°F", "K"] : List String) := by
        rcases UnitConverter.table_temp_units ("Температура", fs) hC rfl e he with
          h1 | h1 | h1 <;> simp [← heu, h1]
      have hv3 : v ∈ (["°C", "°F", "K"] : List String) := by
        rcases UnitConverter.table_temp_units ("Температура", fs) hC rfl e' he' with
          h1 | h1 | h1 <;> simp [← heu', h1]
      exact ⟨_, UnitConverter.temp_eval hu3 hv3 x now⟩
    · obtain ⟨fs, hC, e, he, heu⟩ := UnitConverter.gut_inv hcu
      obtain ⟨fs', hC', e', he', heu'⟩ := UnitConverter.gut_inv hcv
      rw [UnitConverter.table_row_unique hC' hC] at he' hC'
      obtain ⟨q, hq, hq0⟩ := UnitConverter.table_linear_factors (c, fs) hC hT e he
      obtain ⟨q', hq', hq0'⟩ := UnitConverter.table_linear_factors (c, fs) hC hT e' he'
      have heq : e = (u, Factor.num q) := Prod.ext heu hq
      have heq' : e' = (v, Factor.num q') := Prod.ext heu' hq'
      rw [heq] at he
      rw [heq'] at he'
      exact ⟨_, UnitConverter.convert_linear_eval hC hT he he' x now⟩

/-- C8 witness: metres and kilograms are incompatible, and the error names
both categories. -/
theorem C8_unit_error_taxonomy_witness :
    UnitConverter.convert 1 "м" "кг" 0 =
      .error (.incompatibleUnits "м" "Длина" "кг" "Масса") :=
  (C8_unit_error_taxonomy 1 0 "м" "кг").2.1 "Длина" "Масса" rfl rfl (by decide)

/-- C2 counterexample: with rates loaded for base RUB and neither currency the
base, converting amount 0 raises ZeroDivisionError (rate = result / amount),
so no ConversionResult is returned as the claim demands. -/
theorem C2_counterexample_zero_amount :
    CurrencyConverter.convert ⟨"RUB", [("RUB", 1), ("USD", 2), ("EUR", 4)], none⟩
        "USD" "EUR" 0 0 = .error .zeroDivisionError
    ∧ ∀ r : ConversionResult,
        CurrencyConverter.convert ⟨"RUB", [("RUB", 1), ("USD", 2), ("EUR", 4)], none⟩
          "USD" "EUR" 0 0 ≠ .ok r := by
  refine ⟨rfl, fun r h => ?_⟩
  rw [(rfl : CurrencyConverter.convert ⟨"RUB", [("RUB", 1), ("USD", 2), ("EUR", 4)], none⟩
      "USD" "EUR" 0 0 = Except.error CurrencyConverter.Err.zeroDivisionError)] at h
  exact Except.noConfusion h

/-- C2 amended: for positive rates containing both uppercased codes, convert
follows the three-way policy relative to the base currency, provided the
amount is nonzero whenever neither currency is the base (at amount 0 in that
branch, the code raises ZeroDivisionError instead). -/
theorem C2_three_way_policy (base : String) (rs : List (String × ℚ))
    (lu : Option ℚ) (from_currency to_currency : String) (amount now : ℚ)
    (rf rt : ℚ)
    (hf : dictGet rs (pyUpper from_currency) = some rf)
    (ht : dictGet rs (pyUpper to_currency) = some rt)
    (hrf : 0 < rf)
    (hguard : pyUpper from_currency = base ∨ pyUpper to_currency = base ∨ amount ≠ 0) :
    CurrencyConverter.convert ⟨base, rs, lu⟩ from_currency to_currency amount now =
      .ok (if pyUpper from_currency = base then
             ⟨amount, pyUpper from_currency, pyUpper to_currency,
              amount * rt, now, some rt⟩
           else if pyUpper to_currency = base then
             ⟨amount, pyUpper from_currency, pyUpper to_currency,
              amount / rf, now, some (1 / rf)⟩
           else
             ⟨amount, pyUpper from_currency, pyUpper to_currency,
              amount / rf * rt, now, some (amount / rf * rt / amount)⟩) := by
  have hne : rs.isEmpty = false := by
    cases rs with
    | nil => exact absurd hf (by simp [dictGet])
    | cons a l => rfl
  unfold CurrencyConverter.convert
  simp only [hne, Bool.false_eq_true, if_false, hf, ht]
  by_cases h1 : pyUpper from_currency = base
  · rw [if_pos h1, if_pos h1]
  · rw [if_neg h1, if_neg h1]
    by_cases h2 : pyUpper to_currency = base
    · rw [if_pos h2, if_pos h2]
      simp only [fdiv, if_neg hrf.ne', mul_one_div]
    · rw [if_neg h2, if_neg h2]
      have ha : amount ≠ 0 := by
        rcases hguard with h | h | h
        · exact absurd h h1
        · exact absurd h h2
        · exact h
      simp only [fdiv, if_neg hrf.ne', if_neg ha]

/-- C2 witness: converting 7 RUB to USD at rate 2 from the base currency. -/
theorem C2_three_way_policy_witness :
    CurrencyConverter.convert ⟨"RUB", [("RUB", 1), ("USD", 2)], none⟩
      "rub" "usd" 7 1 = .ok ⟨7, "RUB", "USD", 14, 1, some 2⟩ := by
  have h := C2_three_way_policy "RUB" [("RUB", 1), ("USD", 2)] none "rub" "usd" 7 1 1 2
    rfl rfl (by norm_num) (Or.inl rfl)
  rw [h]
  rw [show pyUpper "rub" = "RUB" from rfl, show pyUpper "usd" = "USD" from rfl,
    if_pos rfl]
  norm_num

/-- C3: the code evaluated at the failing input: with base RUB and rates for
USD and JPY, a zero-amount three-way conversion raises ZeroDivisionError at
rate = result / amount instead of returning result 0 with rate rates[to]. -/
theorem C3_zero_amount_division_error :
    CurrencyConverter.convert ⟨"RUB", [("RUB", 1), ("USD", 3), ("JPY", 5)], none⟩
      "USD" "JPY" 0 0 = .error .zeroDivisionError := rfl

/-- C6: _load_from_cache succeeds exactly on a well-formed record younger than
the 24-hour window, adopting its rates and timestamp; on a missing, corrupt or
stale cache it leaves the state unchanged and reports false; fetch_rates
contacts the remote source exactly when the cache load fails; a snapshot aged
23 hours is accepted without a network call and one aged 25 hours forces a
fetch. -/
theorem C6_cache_freshness :
    (∀ (cache : CurrencyConverter.CacheFile) (now : ℚ) (st : CurrencyConverter.State),
      (CurrencyConverter.load_from_cache cache now st).2 = true ↔
        ∃ r, cache = .wellFormed r ∧ now - r.timestamp < CACHE_DURATION_HOURS)
    ∧ (∀ (r : CurrencyConverter.CacheRecord) (now : ℚ) (st : CurrencyConverter.State),
        now - r.timestamp < CACHE_DURATION_HOURS →
        CurrencyConverter.load_from_cache (.wellFormed r) now st =
          ({ st with rates := r.rates, last_update := some r.timestamp }, true))
    ∧ (∀ (cache : CurrencyConverter.CacheFile) (now : ℚ) (st : CurrencyConverter.State),
        (CurrencyConverter.load_from_cache cache now st).2 = false →
        (CurrencyConverter.load_from_cache cache now st).1 = st)
    ∧ (∀ (cache : CurrencyConverter.CacheFile) (net : CurrencyConverter.FetchOutcome)
        (now : ℚ) (st : CurrencyConverter.State),
        (CurrencyConverter.fetch_rates cache net now st).2 =
          !(CurrencyConverter.load_from_cache cache now st).2)
    ∧ (∀ (base : String) (rs : List (String × ℚ)) (now : ℚ)
        (st : CurrencyConverter.State) (net : CurrencyConverter.FetchOutcome),
        CurrencyConverter.load_from_cache (.wellFormed ⟨now - 23, base, rs⟩) now st =
          ({ st with rates := rs, last_update := some (now - 23) }, true)
        ∧ (CurrencyConverter.fetch_rates (.wellFormed ⟨now - 23, base, rs⟩) net now st).2
            = false)
    ∧ (∀ (base : String) (rs : List (String × ℚ)) (now : ℚ)
        (st : CurrencyConverter.State) (net : CurrencyConverter.FetchOutcome),
        CurrencyConverter.load_from_cache (.wellFormed ⟨now - 25, base, rs⟩) now st =
          (st, false)
        ∧ (CurrencyConverter.fetch_rates (.wellFormed ⟨now - 25, base, rs⟩) net now st).2
            = true) := by
  have hload : ∀ (cache : CurrencyConverter.CacheFile) (now : ℚ)
      (st : CurrencyConverter.State),
      (CurrencyConverter.load_from_cache cache now st).2 = true ↔
        ∃ r, cache = .wellFormed r ∧ now - r.timestamp < CACHE_DURATION_HOURS := by
    intro cache now st
    cases cache with
    | missing => simp [CurrencyConverter.load_from_cache]
    | corrupt => simp [CurrencyConverter.load_from_cache]
    | wellFormed r =>
      by_cases h : now - r.timestamp < CACHE_DURATION_HOURS
      · simp [CurrencyConverter.load_from_cache, if_pos h, h]
      · simp [CurrencyConverter.load_from_cache, if_neg h, h]
  have hfetch : ∀ (cache : CurrencyConverter.CacheFile)
      (net : CurrencyConverter.FetchOutcome) (now : ℚ) (st : CurrencyConverter.State),
      (CurrencyConverter.fetch_rates cache net now st).2 =
        !(CurrencyConverter.load_from_cache cache now st).2 := by
    intro cache net now st
    unfold CurrencyConverter.fetch_rates
    rcases hl : CurrencyConverter.load_from_cache cache now st with ⟨st1, b⟩
    cases b
    · cases net with
      | transportError => rfl
      | jsonError => rfl
      | payload result conversion_rates =>
        rcases result with _ | s
        · rfl
        · by_cases hs : s = "success"
          · rcases conversion_rates with _ | m <;> simp [if_pos hs]
          · simp [if_neg hs]
    · rfl
  refine ⟨hload, ?_, ?_, hfetch, ?_, ?_⟩
  · intro r now st h
    simp [CurrencyConverter.load_from_cache, if_pos h]
  · intro cache now st h
    cases cache with
    | missing => rfl
    | corrupt => rfl
    | wellFormed r =>
      by_cases hr : now - r.timestamp < CACHE_DURATION_HOURS
      · exfalso
        have ht := (hload (.wellFormed r) now st).mpr ⟨r, rfl, hr⟩
        rw [ht] at h
        cases h
      · simp only [CurrencyConverter.load_from_cache]
        rw [if_neg hr]
  · intro base rs now st net
    have h23 : now - (now - 23) < CACHE_DURATION_HOURS := by
      have hs : now - (now - 23) = 23 := by ring
      rw [hs]
      show (23 : ℚ) < 24
      norm_num
    have h23v : (23 : ℚ) < CACHE_DURATION_HOURS := by
      show (23 : ℚ) < 24
      norm_num
    constructor
    · simp [CurrencyConverter.load_from_cache, h23v]
    · rw [hfetch]
      have := (hload (.wellFormed ⟨now - 23, base, rs⟩) now st).mpr
        ⟨⟨now - 23, base, rs⟩, rfl, h23⟩
      rw [this]
      rfl
  · intro base rs now st net
    have h25 : ¬(now - (now - 25) < CACHE_DURATION_HOURS) := by
      have hs : now - (now - 25) = 25 := by ring
      rw [hs]
      show ¬((25 : ℚ) < 24)
      norm_num
    have h25v : CACHE_DURATION_HOURS ≤ (25 : ℚ) := by
      show (24 : ℚ) ≤ 25
      norm_num
    constructor
    · simp [CurrencyConverter.load_from_cache, h25v]
    · rw [hfetch]
      have hb : (CurrencyConverter.load_from_cache
          (.wellFormed ⟨now - 25, base, rs⟩) now st).2 = false := by
        rcases hb : (CurrencyConverter.load_from_cache
            (.wellFormed ⟨now - 25, base, rs⟩) now st).2 with _ | _
        · rfl
        · obtain ⟨r, hr, hlt⟩ := (hload _ now st).mp hb
          cases hr
          exact absurd hlt h25
      rw [hb]
      rfl

/-- C6 witness: a one-hour-old record under the 24-hour window is adopted. -/
theorem C6_cache_freshness_witness :
    CurrencyConverter.load_from_cache (.wellFormed ⟨1, "RUB", [("USD", 2)]⟩) 24
        ⟨"RUB", [], none⟩ =
      (⟨"RUB", [("USD", 2)], some 1⟩, true) :=
  C6_cache_freshness.2.1 ⟨1, "RUB", [("USD", 2)]⟩ 24 ⟨"RUB", [], none⟩
    (by show (24 : ℚ) - 1 < 24; norm_num)

/-- C7 counterexample: a successful HTTP response whose JSON payload lacks the
result key makes fetch_rates raise an uncaught KeyError, so an exception does
propagate to the caller and no boolean is returned. -/
theorem C7_counterexample_keyerror :
    CurrencyConverter.fetch_rates .missing (.payload none none) 0 ⟨"RUB", [], none⟩ =
      (.error .keyError, true)
    ∧ ∀ ok : CurrencyConverter.FetchOk,
        (CurrencyConverter.fetch_rates .missing (.payload none none) 0
          ⟨"RUB", [], none⟩).1 ≠ .ok ok := by
  refine ⟨rfl, fun ok h => ?_⟩
  rw [(rfl : (CurrencyConverter.fetch_rates .missing (.payload none none) 0
      ⟨"RUB", [], none⟩).1 = Except.error CurrencyConverter.PyErr.keyError)] at h
  exact Except.noConfusion h

/-- C7 amended: when the cache is unusable, fetch_rates returns False with the
converter state untouched on a transport failure, on a JSON decode failure,
and on a payload whose result field is present but not success; it replaces
the state only on the success path; however, a payload missing the result key
(or missing conversion_rates when result is success) raises an uncaught
KeyError. -/
theorem C7_fetch_failure_semantics (cache : CurrencyConverter.CacheFile) (now : ℚ)
    (st : CurrencyConverter.State)
    (hload : (CurrencyConverter.load_from_cache cache now st).2 = false) :
    CurrencyConverter.fetch_rates cache .transportError now st =
      (.ok ⟨st, false, cache⟩, true)
    ∧ CurrencyConverter.fetch_rates cache .jsonError now st =
      (.ok ⟨st, false, cache⟩, true)
    ∧ (∀ (s : String) (m : Option (List (String × ℚ))), s ≠ "success" →
        CurrencyConverter.fetch_rates cache (.payload (some s) m) now st =
          (.ok ⟨st, false, cache⟩, true))
    ∧ (∀ m : List (String × ℚ),
        CurrencyConverter.fetch_rates cache (.payload (some "success") (some m)) now st =
          (.ok ⟨{ st with rates := m, last_update := some now }, true,
            .wellFormed ⟨now, st.base_currency, m⟩⟩, true))
    ∧ (∀ m : Option (List (String × ℚ)),
        CurrencyConverter.fetch_rates cache (.payload none m) now st =
          (.error .keyError, true))
    ∧ CurrencyConverter.fetch_rates cache (.payload (some "success") none) now st =
        (.error .keyError, true) := by
  have hst : CurrencyConverter.load_from_cache cache now st = (st, false) := by
    have h1 : (CurrencyConverter.load_from_cache cache now st).1 = st := by
      cases cache with
      | missing => rfl
      | corrupt => rfl
      | wellFormed r =>
        simp only [CurrencyConverter.load_from_cache]
        by_cases hr : now - r.timestamp < CACHE_DURATION_HOURS
        · exfalso
          rw [(by simp only [CurrencyConverter.load_from_cache] :
            (CurrencyConverter.load_from_cache (.wellFormed r) now st).2 =
              (if now - r.timestamp < CACHE_DURATION_HOURS then
                ({ st with rates := r.rates, last_update := some r.timestamp }, true)
               else (st, false)).2), if_pos hr] at hload
          cases hload
        · rw [if_neg hr]
    rw [Prod.ext_iff]
    exact ⟨h1, hload⟩
  refine ⟨?_, ?_, ?_, ?_, ?_, ?_⟩
  · unfold CurrencyConverter.fetch_rates
    rw [hst]
  · unfold CurrencyConverter.fetch_rates
    rw [hst]
  · intro s m hs
    unfold CurrencyConverter.fetch_rates
    rw [hst]
    simp only [if_neg hs]
  · intro m
    unfold CurrencyConverter.fetch_rates
    rw [hst]
    rfl
  · intro m
    unfold CurrencyConverter.fetch_rates
    rw [hst]
  · unfold CurrencyConverter.fetch_rates
    rw [hst]
    rfl

/-- C7 witness: a transport failure with a missing cache returns False and
leaves the state untouched. -/
theorem C7_fetch_failure_semantics_witness :
    CurrencyConverter.fetch_rates .missing .transportError 0 ⟨"RUB", [("USD", 2)], none⟩ =
      (.ok ⟨⟨"RUB", [("USD", 2)], none⟩, false, .missing⟩, true) :=
  (C7_fetch_failure_semantics .missing 0 ⟨"RUB", [("USD", 2)], none⟩ rfl).1

/-- C9: every ConversionResult returned by CurrencyConverter.convert carries a
populated rate, while every ConversionResult returned by UnitConverter.convert
has its rate absent. -/
theorem C9_rate_presence :
    (∀ (self : CurrencyConverter.State) (fc tc : String) (amount now : ℚ)
        (r : ConversionResult),
        CurrencyConverter.convert self fc tc amount now = .ok r → r.rate.isSome = true)
    ∧ (∀ (x : ℚ) (u v : String) (now : ℚ) (r : ConversionResult),
        UnitConverter.convert x u v now = .ok r → r.rate = none) := by
  constructor
  · intro self fc tc amount now r h
    unfold CurrencyConverter.convert at h
    split at h
    · exact absurd h (by simp)
    · dsimp only at h
      split at h
      · split at h
        · injection h with h'
          subst h'
          rfl
        · split at h
          · split at h
            · exact absurd h (by simp)
            · injection h with h'
              subst h'
              rfl
          · split at h
            · exact absurd h (by simp)
            · split at h
              · exact absurd h (by simp)
              · injection h with h'
                subst h'
                rfl
      · exact absurd h (by simp)
  · intro x u v now r h
    unfold UnitConverter.convert at h
    split at h
    · split at h
      · exact absurd h (by simp)
      · split at h
        · split at h
          · exact absurd h (by simp)
          · injection h with h'
            subst h'
            rfl
        · split at h
          · exact absurd h (by simp)
          · split at h
            · split at h
              · exact absurd h (by simp)
              · injection h with h'
                subst h'
                rfl
            · exact absurd h (by simp)
    · exact absurd h (by simp)

/-- C9 witness: a concrete currency result carries a rate and a concrete unit
result does not. -/
theorem C9_rate_presence_witness :
    (ConversionResult.mk 7 "RUB" "USD" 14 1 (some 2)).rate.isSome = true
    ∧ (ConversionResult.mk 5 "кг" "кг" 5 0 none).rate = none := by
  constructor
  · exact C9_rate_presence.1 ⟨"RUB", [("RUB", 1), ("USD", 2)], none⟩ "rub" "usd" 7 1
      ⟨7, "RUB", "USD", 14, 1, some 2⟩ C2_three_way_policy_witness
  · exact C9_rate_presence.2 5 "кг" "кг" 0 ⟨5, "кг", "кг", 5, 0, none⟩
      (C5_identity_exact "кг" "Масса" rfl 5 0)

/-- C10: _load_from_cache never reads the base field of the cached record: two
records differing only in base load to identical states, booleans and
last_update values. -/
theorem C10_cache_base_ignored (ts : ℚ) (b1 b2 : String) (rs : List (String × ℚ))
    (now : ℚ) (st : CurrencyConverter.State) :
    CurrencyConverter.load_from_cache (.wellFormed ⟨ts, b1, rs⟩) now st =
      CurrencyConverter.load_from_cache (.wellFormed ⟨ts, b2, rs⟩) now st := rfl
